import Mathlib

/-!
Shallow embedding of the request-handling core of `main.py` (gcyt-dlp).

The repository is a FastAPI service with three POST endpoints (`/download`,
`/tasks/handle`, `/pubsub/push`) that share the same shape: optional
shared-secret check, bounded semaphore admission, a temporary workspace,
a blocking yt-dlp fetch, and either a streamed `FileResponse` or an upload
to Google Cloud Storage, with permit release and (partial) workspace
cleanup in `finally` blocks.

External collaborators (yt-dlp, the GCS client, base64/json decoding of the
Pub/Sub envelope) are modelled as oracle inputs; the control flow, the
error mapping (including the `except Exception` catch-all that re-raises
any in-`try` `HTTPException` as a 500), and the resource effects (permit
acquire/release, workspace create/remove, publish calls) are translated
from the source.  Each handler returns its HTTP outcome together with a
`Trace` recording those effects.
-/

namespace Gcyt

/-- A file inside the temporary workspace: its name and byte size. -/
structure FileEntry where
  name : String
  size : Nat
deriving DecidableEq, Repr

/-- Outcome of the external `yt_dlp.YoutubeDL(...).extract_info(url, download=True)`
call inside `_download_with_ytdlp`: either it raises `DownloadError`, or it
completes, reporting a filename (which may or may not exist on disk after
merge/post-processing) and leaving some set of files in the workspace
directory (the result of `tmpdir.glob("*")`, in enumeration order). -/
inductive YdlResult where
  | err (msg : String)
  | done (reported : FileEntry) (reportedOnDisk : Bool) (files : List FileEntry)
deriving DecidableEq, Repr

/-- Errors raised by `_download_with_ytdlp`:
`yt_dlp.utils.DownloadError` from the fetch itself, or the
`FileNotFoundError("Downloaded file not found")` of the locator fallback. -/
inductive FetchErr where
  | downloadError (msg : String)
  | fileNotFound (msg : String)
deriving DecidableEq, Repr

/-- Python's `max(candidates, key=lambda p: p.stat().st_size)`: scan left to
right, replacing the current best only on a strictly larger key, so the
first-encountered entry of maximal size wins a tie. -/
def maxBySize : FileEntry → List FileEntry → FileEntry
  | best, [] => best
  | best, f :: fs => maxBySize (if best.size < f.size then f else best) fs

/-- `_download_with_ytdlp` (main.py lines 40-67) given the oracle outcome of
the yt-dlp call: propagate `DownloadError`; otherwise prefer the reported
path if it exists on disk, else fall back to the largest file in the
workspace, failing with `FileNotFoundError` when the workspace is empty. -/
def downloadWithYtdlp (r : YdlResult) : Except FetchErr FileEntry :=
  match r with
  | .err m => .error (.downloadError m)
  | .done reported onDisk files =>
    if onDisk then .ok reported
    else
      match files with
      | [] => .error (.fileNotFound "Downloaded file not found")
      | f :: fs => .ok (maxBySize f fs)

/-- One call to the object store as performed by `_upload_to_gcs`:
which local file, which bucket, which object name, and whether
`blob.make_public()` was invoked as part of the call. -/
structure PublishCall where
  fileName : String
  bucket : String
  objectName : String
  madePublic : Bool
deriving DecidableEq, Repr

/-- `blob.public_url` for a bucket/object pair. -/
def publicUrl (bucket objectName : String) : String :=
  "https://storage.googleapis.com/" ++ bucket ++ "/" ++ objectName

/-- Errors raised by `_upload_to_gcs`: the `RuntimeError` when the GCS client
library is not installed (`_HAS_GCS` false), and the `ValueError` on an
empty bucket name. -/
inductive UploadErr where
  | noGcs (msg : String)
  | emptyBucket (msg : String)
deriving DecidableEq, Repr

/-- `_upload_to_gcs` (main.py lines 69-81).  `_HAS_GCS` is the capability
flag computed once at import time by the `try: from google.cloud import
storage` block; when it is false the function raises `RuntimeError` before
touching the store.  The object name defaults to the file's local name only
when the argument is `None` (`if object_name is None`).  On success the blob
is uploaded, made public, and its public URL returned. -/
def uploadToGcs (hasGCS : Bool) (file : FileEntry) (bucket : String)
    (objectName : Option String) : Except UploadErr (PublishCall × String) :=
  if !hasGCS then
    .error (.noGcs "google-cloud-storage is not installed; install the \x27gcs\x27 extra")
  else if bucket = "" then
    .error (.emptyBucket "bucket_name required")
  else
    let obj := match objectName with
      | none => file.name
      | some s => s
    .ok (⟨file.name, bucket, obj, true⟩, publicUrl bucket obj)

/-- Python truthiness of an optional string: `None` and `""` are falsy. -/
def pyTruthy : Option String → Bool
  | none => false
  | some s => !(s == "")

/-- Python `a or b` on optional strings (used for
`os.getenv("WORKER_TOKEN") or os.getenv("SECRET_TOKEN")` and
`object_name or video_path.name`). -/
def pyOrStr (a b : Option String) : Option String :=
  if pyTruthy a then a else b

/-- `object_name or video_path.name`: the caller-supplied name when truthy
(present and non-empty), otherwise the fallback. -/
def pyOrName (objectName : Option String) (fallback : String) : String :=
  match pyOrStr objectName (some fallback) with
  | some s => s
  | none => fallback

/-- The process environment as read by `main.py`: the two optional secret
variables and the import-time GCS capability flag `_HAS_GCS`. -/
structure Env where
  workerToken : Option String
  secretToken : Option String
  hasGCS : Bool
deriving DecidableEq, Repr

/-- An HTTP error response (`HTTPException(status_code, detail)`). -/
structure HttpError where
  status : Nat
  detail : String
deriving DecidableEq, Repr

/-- `str(e)` for a caught starlette `HTTPException`
(its `__str__` is `f"{self.status_code}: {self.detail}"`); this is what the
`except Exception` catch-all embeds into its 500 response. -/
def strOfHttpExc (status : Nat) (detail : String) : String :=
  toString status ++ ": " ++ detail

/-- `_require_secret` (main.py lines 32-38): when
`WORKER_TOKEN or SECRET_TOKEN` is truthy, the `x-worker-token` header (absent
modelled as `none`) must equal it, else `HTTPException(401, "unauthorized")`;
when no secret is configured, no check is performed. -/
def requireSecret (env : Env) (providedHeader : Option String) : Except HttpError Unit :=
  let expected := pyOrStr env.workerToken env.secretToken
  if pyTruthy expected then
    if providedHeader = expected then .ok () else .error ⟨401, "unauthorized"⟩
  else .ok ()

/-- Outcome of `asyncio.wait_for(_semaphore.acquire(), timeout=...)` for one
request: either a permit was granted within the timeout, or
`asyncio.TimeoutError` was raised (no permit held). -/
inductive AcquireOutcome where
  | granted
  | timedOut
deriving DecidableEq, Repr

/-- A successful handler response: the JSON body of a publish-mode success,
or a streamed `FileResponse` (whose background task removes the workspace
after the bytes are transmitted or the client disconnects). -/
inductive Response where
  | uploaded (bucket objectName url : String) (size : Nat)
  | fileStream (name : String)
deriving DecidableEq, Repr

/-- The externally visible resource effects of handling one request:
how many permits were acquired and released, how many workspace directories
were created, how many `shutil.rmtree` removals ran synchronously before the
handler returned, how many were attached as a deferred `BackgroundTask`
(running exactly once after response transmission completes or the client
disconnects), and the calls made to the object store. -/
structure Trace where
  permitAcquires : Nat
  permitReleases : Nat
  workspaceCreates : Nat
  workspaceSyncRemoves : Nat
  workspaceDeferredRemoves : Nat
  publishCalls : List PublishCall
deriving DecidableEq, Repr

/-- The trace of a request that was rejected before acquiring a permit or
creating a workspace. -/
def Trace.empty : Trace := ⟨0, 0, 0, 0, 0, []⟩

/-- Total number of times the workspace directory is removed over the
request's full lifecycle, deferred background cleanup included. -/
def Trace.workspaceRemoves (t : Trace) : Nat :=
  t.workspaceSyncRemoves + t.workspaceDeferredRemoves

/-- The `/download` handler (main.py lines 87-132).  Control flow translated
from the source: secret check; bounded acquire (timeout → 503); `mkdtemp`;
fetch off the event loop; then either upload-and-JSON (publish mode) or a
`FileResponse` with a deferred `rmtree` background task (stream mode).
`except yt_dlp.utils.DownloadError` → 400; `except Exception` → 500 with
`str(e)` — note this catch-all also captures the in-`try`
`HTTPException(400, "bucket is required when to_gcs=true")`, turning it into
a 500.  The `finally` block releases the permit and removes the workspace
only when `to_gcs` is true. -/
def download (env : Env) (header : Option String) (toGcs : Bool)
    (bucket objectName : Option String) (acq : AcquireOutcome) (fetch : YdlResult) :
    Except HttpError Response × Trace :=
  match requireSecret env header with
  | .error e => (.error e, Trace.empty)
  | .ok () =>
    match acq with
    | .timedOut => (.error ⟨503, "Busy, try again later"⟩, Trace.empty)
    | .granted =>
      let syncRm : Nat := if toGcs then 1 else 0
      let base : Trace := ⟨1, 1, 1, syncRm, 0, []⟩
      match downloadWithYtdlp fetch with
      | .error (.downloadError m) =>
        (.error ⟨400, "yt-dlp error: " ++ m⟩, base)
      | .error (.fileNotFound m) =>
        (.error ⟨500, m⟩, base)
      | .ok video =>
        if toGcs then
          if !pyTruthy bucket then
            (.error ⟨500, strOfHttpExc 400 "bucket is required when to_gcs=true"⟩, base)
          else
            match uploadToGcs env.hasGCS video ((bucket).getD "") objectName with
            | .error (.noGcs m) => (.error ⟨500, m⟩, base)
            | .error (.emptyBucket m) => (.error ⟨500, m⟩, base)
            | .ok (call, urlStr) =>
              (.ok (.uploaded ((bucket).getD "") (pyOrName objectName video.name)
                    urlStr video.size),
               { base with publishCalls := [call] })
        else
          (.ok (.fileStream video.name),
           { base with workspaceDeferredRemoves := 1 })

/-- The parsed JSON body of `/tasks/handle`, and equally the decoded Pub/Sub
payload of `/pubsub/push`: `{url, bucket, object_name}`, each field absent
modelled as `none`. -/
structure TasksBody where
  url : Option String
  bucket : Option String
  objectName : Option String
deriving DecidableEq, Repr

/-- The shared post-admission body of `/tasks/handle` (main.py lines 159-179)
and `/pubsub/push` (lines 217-238), which are textually identical: `mkdtemp`;
fetch; upload; JSON response; `except DownloadError` → 400, `except
Exception` → 500; `finally` releases the permit and removes the workspace
unconditionally. -/
def backgroundFetchPublish (env : Env) (bucket : String) (objectName : Option String)
    (fetch : YdlResult) : Except HttpError Response × Trace :=
  let base : Trace := ⟨1, 1, 1, 1, 0, []⟩
  match downloadWithYtdlp fetch with
  | .error (.downloadError m) => (.error ⟨400, "yt-dlp error: " ++ m⟩, base)
  | .error (.fileNotFound m) => (.error ⟨500, m⟩, base)
  | .ok video =>
    match uploadToGcs env.hasGCS video bucket objectName with
    | .error (.noGcs m) => (.error ⟨500, m⟩, base)
    | .error (.emptyBucket m) => (.error ⟨500, m⟩, base)
    | .ok (call, urlStr) =>
      (.ok (.uploaded bucket (pyOrName objectName video.name) urlStr video.size),
       { base with publishCalls := [call] })

/-- The `/tasks/handle` handler (main.py lines 136-179): secret check, then
`url` and `bucket` presence checks (both 400, raised before the semaphore is
touched), then bounded acquire (timeout → 503), then the shared
fetch-and-publish body. -/
def handleCloudTasks (env : Env) (header : Option String) (body : TasksBody)
    (acq : AcquireOutcome) (fetch : YdlResult) : Except HttpError Response × Trace :=
  match requireSecret env header with
  | .error e => (.error e, Trace.empty)
  | .ok () =>
    if !pyTruthy body.url then (.error ⟨400, "url is required"⟩, Trace.empty)
    else if !pyTruthy body.bucket then
      (.error ⟨400, "bucket is required for background jobs"⟩, Trace.empty)
    else
      match acq with
      | .timedOut => (.error ⟨503, "Busy, try again later"⟩, Trace.empty)
      | .granted => backgroundFetchPublish env (body.bucket.getD "") body.objectName fetch

/-- The `/pubsub/push` handler (main.py lines 181-238): secret check; extract
`message.data` from the envelope (`body.get("message") or {}` then
`.get("data")`; a falsy value → 400 "missing message.data"); decode
`json.loads(base64.b64decode(data))` — any exception → 400 "invalid
message.data payload" (the `decode` oracle returns `none` in that case);
then the same field checks, bounded acquire, and shared body as
`/tasks/handle`.  All envelope failures occur before the semaphore is
touched and before any workspace exists. -/
def handlePubsubPush (env : Env) (header : Option String) (dataB64 : Option String)
    (decode : String → Option TasksBody) (acq : AcquireOutcome) (fetch : YdlResult) :
    Except HttpError Response × Trace :=
  match requireSecret env header with
  | .error e => (.error e, Trace.empty)
  | .ok () =>
    if !pyTruthy dataB64 then (.error ⟨400, "missing message.data"⟩, Trace.empty)
    else
      match decode (dataB64.getD "") with
      | none => (.error ⟨400, "invalid message.data payload"⟩, Trace.empty)
      | some payload =>
        if !pyTruthy payload.url then (.error ⟨400, "url is required"⟩, Trace.empty)
        else if !pyTruthy payload.bucket then
          (.error ⟨400, "bucket is required for background jobs"⟩, Trace.empty)
        else
          match acq with
          | .timedOut => (.error ⟨503, "Busy, try again later"⟩, Trace.empty)
          | .granted =>
            backgroundFetchPublish env (payload.bucket.getD "") payload.objectName fetch

/-! ### Semaphore trace semantics

`_semaphore = asyncio.Semaphore(MAX_CONCURRENCY)` is the only state shared
across concurrent requests.  We model the history of gate events as a list
of operations and track the number of outstanding (granted, not yet
released) permits.  A grant can only happen while a permit is available
(outstanding < K — this is the semaphore's own wait condition); a release
only comes from a permit holder (outstanding > 0 — established per handler
by the exactly-once pairing proved below); a timed-out acquisition mutates
nothing. -/

/-- One event at the admission gate. -/
inductive SemOp where
  | acquireOk
  | acquireTimeout
  | release
deriving DecidableEq, Repr

/-- Run a history of gate events over a pool of size `K`, starting from
`out` outstanding permits; `none` marks an impossible history (a grant with
no permit available, or a release with no holder). -/
def runSem (K : Nat) : Nat → List SemOp → Option Nat
  | out, [] => some out
  | out, .acquireOk :: ops => if out < K then runSem K (out + 1) ops else none
  | out, .acquireTimeout :: ops => runSem K out ops
  | out, .release :: ops => if 0 < out then runSem K (out - 1) ops else none

/-- Number of granted acquisitions in a history. -/
def grants : List SemOp → Nat
  | [] => 0
  | .acquireOk :: ops => grants ops + 1
  | _ :: ops => grants ops

/-- Number of releases in a history. -/
def releaseCount : List SemOp → Nat
  | [] => 0
  | .release :: ops => releaseCount ops + 1
  | _ :: ops => releaseCount ops

/-! ### Helper lemmas -/

theorem runSem_bounded (K : Nat) (ops : List SemOp) :
    ∀ out res, out ≤ K → runSem K out ops = some res → res ≤ K := by
  induction ops with
  | nil =>
    intro out res hle h
    simp only [runSem, Option.some.injEq] at h
    omega
  | cons op rest ih =>
    intro out res hle h
    cases op with
    | acquireOk =>
      simp only [runSem] at h
      split at h
      · exact ih (out + 1) res (by omega) h
      · exact absurd h (by simp)
    | acquireTimeout =>
      simp only [runSem] at h
      exact ih out res hle h
    | release =>
      simp only [runSem] at h
      split at h
      · exact ih (out - 1) res (by omega) h
      · exact absurd h (by simp)

theorem runSem_append (K : Nat) (t1 t2 : List SemOp) :
    ∀ out, runSem K out (t1 ++ t2) = (runSem K out t1).bind (fun m => runSem K m t2) := by
  induction t1 with
  | nil => intro out; simp [runSem]
  | cons op rest ih =>
    intro out
    cases op with
    | acquireOk =>
      simp only [List.cons_append, runSem]
      split
      · exact ih (out + 1)
      · simp
    | acquireTimeout =>
      simp only [List.cons_append, runSem]
      exact ih out
    | release =>
      simp only [List.cons_append, runSem]
      split
      · exact ih (out - 1)
      · simp

theorem runSem_counts (K : Nat) (ops : List SemOp) :
    ∀ out res, runSem K out ops = some res →
      res + releaseCount ops = out + grants ops := by
  induction ops with
  | nil =>
    intro out res h
    simp only [runSem, Option.some.injEq] at h
    simp [releaseCount, grants, h]
  | cons op rest ih =>
    intro out res h
    cases op with
    | acquireOk =>
      simp only [runSem] at h
      split at h
      · have := ih (out + 1) res h
        simp only [releaseCount, grants]
        omega
      · exact absurd h (by simp)
    | acquireTimeout =>
      simp only [runSem] at h
      have := ih out res h
      simp only [releaseCount, grants]
      omega
    | release =>
      simp only [runSem] at h
      split at h
      · have := ih (out - 1) res h
        simp only [releaseCount, grants]
        omega
      · exact absurd h (by simp)

theorem maxBySize_size_le (fs : List FileEntry) :
    ∀ best, best.size ≤ (maxBySize best fs).size := by
  induction fs with
  | nil => intro best; simp [maxBySize]
  | cons f rest ih =>
    intro best
    simp only [maxBySize]
    split
    · exact le_trans (le_of_lt (by assumption)) (ih f)
    · exact ih best

theorem maxBySize_mem (fs : List FileEntry) :
    ∀ best, maxBySize best fs ∈ best :: fs := by
  induction fs with
  | nil => intro best; simp [maxBySize]
  | cons f rest ih =>
    intro best
    simp only [maxBySize]
    split
    · have := ih f
      simp only [List.mem_cons] at this ⊢
      tauto
    · have := ih best
      simp only [List.mem_cons] at this ⊢
      tauto

theorem maxBySize_ub (fs : List FileEntry) :
    ∀ best g, g ∈ best :: fs → g.size ≤ (maxBySize best fs).size := by
  induction fs with
  | nil =>
    intro best g hg
    simp only [List.mem_cons, List.not_mem_nil, or_false] at hg
    simp [maxBySize, hg]
  | cons f rest ih =>
    intro best g hg
    simp only [List.mem_cons] at hg
    simp only [maxBySize]
    split
    · rcases hg with h | h | h
      · exact le_trans (le_of_lt (h ▸ (by assumption))) (maxBySize_size_le rest f)
      · exact ih f g (by simp [h])
      · exact ih f g (by simp [h])
    · rcases hg with h | h | h
      · exact ih best g (by simp [h])
      · exact le_trans (h ▸ (by omega)) (maxBySize_size_le rest best)
      · exact ih best g (by simp [h])

theorem maxBySize_first (fs : List FileEntry) :
    ∀ best, ∃ i, i < (best :: fs).length ∧
      (best :: fs).getD i ⟨"", 0⟩ = maxBySize best fs ∧
      ∀ j, j < i → ((best :: fs).getD j ⟨"", 0⟩).size < (maxBySize best fs).size := by
  induction fs with
  | nil =>
    intro best
    refine ⟨0, by simp, by simp [maxBySize], ?_⟩
    intro j hj
    omega
  | cons f rest ih =>
    intro best
    by_cases hbf : best.size < f.size
    · obtain ⟨i, hi, heq, hlt⟩ := ih f
      refine ⟨i + 1, ?_, ?_, ?_⟩
      · simp only [List.length_cons] at hi ⊢
        omega
      · simp only [List.getD_cons_succ, maxBySize, if_pos hbf]
        exact heq
      · intro j hj
        simp only [maxBySize, if_pos hbf]
        match j with
        | 0 =>
          simp only [List.getD_cons_zero]
          exact lt_of_lt_of_le hbf (maxBySize_size_le rest f)
        | Nat.succ k =>
          simp only [List.getD_cons_succ]
          exact hlt k (by omega)
    · obtain ⟨i, hi, heq, hlt⟩ := ih best
      match i, hi, heq, hlt with
      | 0, hi, heq, hlt =>
        refine ⟨0, by simp, ?_, ?_⟩
        · simp only [List.getD_cons_zero] at heq ⊢
          simp only [maxBySize, if_neg hbf]
          exact heq
        · intro j hj
          omega
      | Nat.succ k, hi, heq, hlt =>
        refine ⟨k + 2, ?_, ?_, ?_⟩
        · simp only [List.length_cons] at hi ⊢
          omega
        · simp only [List.getD_cons_succ] at heq ⊢
          simp only [maxBySize, if_neg hbf]
          exact heq
        · intro j hj
          simp only [maxBySize, if_neg hbf]
          match j with
          | 0 =>
            have h0 := hlt 0 (by omega)
            simp only [List.getD_cons_zero] at h0 ⊢
            exact h0
          | 1 =>
            have h0 := hlt 0 (by omega)
            simp only [List.getD_cons_zero] at h0
            simp only [List.getD_cons_succ, List.getD_cons_zero]
            omega
          | Nat.succ (Nat.succ m) =>
            have hm := hlt (m + 1) (by omega)
            simp only [List.getD_cons_succ] at hm ⊢
            exact hm

theorem download_permit_pair (env : Env) (header : Option String) (toGcs : Bool)
    (bucket objectName : Option String) (acq : AcquireOutcome) (fetch : YdlResult) :
    (download env header toGcs bucket objectName acq fetch).2.permitReleases =
      (download env header toGcs bucket objectName acq fetch).2.permitAcquires ∧
    (download env header toGcs bucket objectName acq fetch).2.permitAcquires ≤ 1 := by
  unfold download
  repeat' split
  all_goals simp [Trace.empty]

theorem download_timeout_trace (env : Env) (header : Option String) (toGcs : Bool)
    (bucket objectName : Option String) (fetch : YdlResult) :
    (download env header toGcs bucket objectName .timedOut fetch).2 = Trace.empty := by
  unfold download
  repeat' split
  all_goals simp_all [Trace.empty]

theorem tasks_permit_pair (env : Env) (header : Option String) (body : TasksBody)
    (acq : AcquireOutcome) (fetch : YdlResult) :
    (handleCloudTasks env header body acq fetch).2.permitReleases =
      (handleCloudTasks env header body acq fetch).2.permitAcquires ∧
    (handleCloudTasks env header body acq fetch).2.permitAcquires ≤ 1 := by
  unfold handleCloudTasks backgroundFetchPublish
  repeat' split
  all_goals simp [Trace.empty]

theorem pubsub_permit_pair (env : Env) (header : Option String) (dataB64 : Option String)
    (decode : String → Option TasksBody) (acq : AcquireOutcome) (fetch : YdlResult) :
    (handlePubsubPush env header dataB64 decode acq fetch).2.permitReleases =
      (handlePubsubPush env header dataB64 decode acq fetch).2.permitAcquires ∧
    (handlePubsubPush env header dataB64 decode acq fetch).2.permitAcquires ≤ 1 := by
  unfold handlePubsubPush backgroundFetchPublish
  repeat' split
  all_goals simp [Trace.empty]

/-! ### Claims -/

/-- C1: the spec claims every request that creates a workspace removes it
exactly once on every terminal path, including retriever failure.  The code
violates this on the `/download` stream-mode failure paths: the `finally`
block removes the workspace only when `to_gcs` is true, although its own
comment says cleanup should also happen when the handler "errored before
streaming".  At the failing input (stream-mode request whose fetch raises
`DownloadError`) the workspace is created but never removed; by contrast the
stream-mode success path (deferred background cleanup) and the background
endpoints (unconditional `finally` cleanup) remove it exactly once. -/
theorem C1_stream_failure_leaks_workspace :
    ((download ⟨none, none, true⟩ none false none none .granted (.err "boom")).2.workspaceCreates = 1 ∧
     (download ⟨none, none, true⟩ none false none none .granted (.err "boom")).2.workspaceRemoves = 0 ∧
     (download ⟨none, none, true⟩ none false none none .granted (.err "boom")).1 =
       .error ⟨400, "yt-dlp error: boom"⟩) ∧
    (download ⟨none, none, true⟩ none false none none .granted
        (.done ⟨"v.mp4", 7⟩ true [])).2.workspaceRemoves = 1 ∧
    (handleCloudTasks ⟨none, none, true⟩ none ⟨some "u", some "b", none⟩ .granted
        (.err "boom")).2.workspaceRemoves = 1 :=
  ⟨⟨rfl, rfl, rfl⟩, rfl, rfl⟩

/-- C2: every successful permit acquisition is released exactly once on
every path (each handler's trace has releases = acquires ≤ 1), a timed-out
acquisition holds no permit and mutates nothing (empty trace; the gate step
on a timeout is the identity), and over any realizable gate history the
outstanding-permit count never exceeds the pool size K and is 0 once grants
and releases balance. -/
theorem C2_permit_release_exactly_once :
    (∀ (env : Env) (header : Option String) (toGcs : Bool)
        (bucket objectName : Option String) (acq : AcquireOutcome) (fetch : YdlResult),
        (download env header toGcs bucket objectName acq fetch).2.permitReleases =
          (download env header toGcs bucket objectName acq fetch).2.permitAcquires ∧
        (download env header toGcs bucket objectName acq fetch).2.permitAcquires ≤ 1) ∧
    (∀ (env : Env) (header : Option String) (toGcs : Bool)
        (bucket objectName : Option String) (fetch : YdlResult),
        (download env header toGcs bucket objectName .timedOut fetch).2 = Trace.empty) ∧
    (∀ (env : Env) (header : Option String) (body : TasksBody)
        (acq : AcquireOutcome) (fetch : YdlResult),
        (handleCloudTasks env header body acq fetch).2.permitReleases =
          (handleCloudTasks env header body acq fetch).2.permitAcquires ∧
        (handleCloudTasks env header body acq fetch).2.permitAcquires ≤ 1) ∧
    (∀ (env : Env) (header : Option String) (dataB64 : Option String)
        (decode : String → Option TasksBody) (acq : AcquireOutcome) (fetch : YdlResult),
        (handlePubsubPush env header dataB64 decode acq fetch).2.permitReleases =
          (handlePubsubPush env header dataB64 decode acq fetch).2.permitAcquires ∧
        (handlePubsubPush env header dataB64 decode acq fetch).2.permitAcquires ≤ 1) ∧
    (∀ (K out : Nat) (ops : List SemOp),
        runSem K out (SemOp.acquireTimeout :: ops) = runSem K out ops) ∧
    (∀ (K : Nat) (ops : List SemOp) (n : Nat), runSem K 0 ops = some n →
        n ≤ K ∧ (grants ops = releaseCount ops → n = 0)) := by
  refine ⟨download_permit_pair, download_timeout_trace, tasks_permit_pair,
    pubsub_permit_pair, fun K out ops => rfl, ?_⟩
  intro K ops n h
  refine ⟨runSem_bounded K ops 0 n (Nat.zero_le K) h, ?_⟩
  intro hg
  have hc := runSem_counts K ops 0 n h
  omega

/-- Witness for C2 at concrete inputs: a timed-out acquisition on
`/download` leaves the empty trace, and the history [grant, release] over a
pool of size 2 ends with 0 outstanding permits. -/
theorem C2_permit_release_exactly_once_witness :
    (download ⟨none, none, true⟩ none false none none .timedOut (.err "e")).2 = Trace.empty ∧
    ((0 : Nat) ≤ 2 ∧ (grants [SemOp.acquireOk, SemOp.release] =
        releaseCount [SemOp.acquireOk, SemOp.release] → (0 : Nat) = 0)) := by
  constructor
  · exact C2_permit_release_exactly_once.2.1 ⟨none, none, true⟩ none false none none (.err "e")
  · exact C2_permit_release_exactly_once.2.2.2.2.2 2 [SemOp.acquireOk, SemOp.release] 0 (by rfl)

/-- C3: along any realizable gate history, at every instant (every prefix)
at most K requests are past the admission gate; a request whose acquisition
times out receives the 503 Overloaded backpressure response. -/
theorem C3_admission_bound_and_overload :
    (∀ (K : Nat) (t1 t2 : List SemOp) (n : Nat), runSem K 0 (t1 ++ t2) = some n →
        ∃ m, runSem K 0 t1 = some m ∧ m ≤ K) ∧
    (∀ (env : Env) (header : Option String) (toGcs : Bool)
        (bucket objectName : Option String) (fetch : YdlResult),
        requireSecret env header = .ok () →
        (download env header toGcs bucket objectName .timedOut fetch).1 =
          .error ⟨503, "Busy, try again later"⟩) ∧
    (∀ (env : Env) (header : Option String) (body : TasksBody) (fetch : YdlResult),
        requireSecret env header = .ok () →
        pyTruthy body.url = true → pyTruthy body.bucket = true →
        (handleCloudTasks env header body .timedOut fetch).1 =
          .error ⟨503, "Busy, try again later"⟩) := by
  refine ⟨?_, ?_, ?_⟩
  · intro K t1 t2 n h
    rw [runSem_append] at h
    cases hm : runSem K 0 t1 with
    | none => rw [hm] at h; exact absurd h (by simp)
    | some m => exact ⟨m, rfl, runSem_bounded K t1 0 m (Nat.zero_le K) hm⟩
  · intro env header toGcs bucket objectName fetch hsec
    unfold download
    rw [hsec]
  · intro env header body fetch hsec hu hb
    unfold handleCloudTasks
    rw [hsec]
    simp [hu, hb]

/-- Witness for C3 at concrete inputs: the prefix bound applied to the
history [grant] ++ [release] over a pool of size 1, and the 503 response of
a timed-out `/download` request with no secret configured. -/
theorem C3_admission_bound_and_overload_witness :
    (∃ m, runSem 1 0 [SemOp.acquireOk] = some m ∧ m ≤ 1) ∧
    (download ⟨none, none, true⟩ none false none none .timedOut (.err "e")).1 =
      .error ⟨503, "Busy, try again later"⟩ := by
  constructor
  · exact C3_admission_bound_and_overload.1 1 [SemOp.acquireOk] [SemOp.release] 0 (by rfl)
  · exact C3_admission_bound_and_overload.2.1 ⟨none, none, true⟩ none false none none
      (.err "e") rfl

/-- C4 counterexample: on `/download` with to_gcs=true and no bucket, the
permit IS acquired (and the fetch runs) before the missing bucket is
noticed, and the failure surfaces as a 500 (the in-handler
HTTPException(400) is captured by the `except Exception` catch-all), not as
a 400 — refuting both the "before any permit" and the "fails with
BadRequest" parts of the claim for this endpoint. -/
theorem C4_counterexample :
    (download ⟨none, none, true⟩ none true none none .granted
        (.done ⟨"clip.mp4", 42⟩ true [])).2.permitAcquires = 1 ∧
    (download ⟨none, none, true⟩ none true none none .granted
        (.done ⟨"clip.mp4", 42⟩ true [])).1 =
      .error ⟨500, "400: bucket is required when to_gcs=true"⟩ :=
  ⟨rfl, rfl⟩

/-- C4 (amended): on the background endpoints `/tasks/handle` and
`/pubsub/push` a publish request missing the bucket fails with
BadRequest(400) before the admission gate is touched (empty trace); on
`/download` with to_gcs=true the missing bucket is detected only after the
permit is acquired and the fetch has completed, and surfaces as a 500
because the in-`try` BadRequest is converted by the catch-all. -/
theorem C4_amended_bucket_check :
    (∀ (env : Env) (header : Option String) (body : TasksBody)
        (acq : AcquireOutcome) (fetch : YdlResult),
        requireSecret env header = .ok () →
        pyTruthy body.url = true → pyTruthy body.bucket = false →
        handleCloudTasks env header body acq fetch =
          (.error ⟨400, "bucket is required for background jobs"⟩, Trace.empty)) ∧
    (∀ (env : Env) (header : Option String) (dataB64 : Option String)
        (decode : String → Option TasksBody) (payload : TasksBody)
        (acq : AcquireOutcome) (fetch : YdlResult),
        requireSecret env header = .ok () →
        pyTruthy dataB64 = true → decode (dataB64.getD "") = some payload →
        pyTruthy payload.url = true → pyTruthy payload.bucket = false →
        handlePubsubPush env header dataB64 decode acq fetch =
          (.error ⟨400, "bucket is required for background jobs"⟩, Trace.empty)) ∧
    (∀ (env : Env) (header : Option String) (bucket objectName : Option String)
        (fetch : YdlResult) (video : FileEntry),
        requireSecret env header = .ok () → pyTruthy bucket = false →
        downloadWithYtdlp fetch = .ok video →
        (download env header true bucket objectName .granted fetch).1 =
          .error ⟨500, strOfHttpExc 400 "bucket is required when to_gcs=true"⟩ ∧
        (download env header true bucket objectName .granted fetch).2.permitAcquires = 1 ∧
        (download env header true bucket objectName .granted fetch).2.workspaceCreates = 1) := by
  refine ⟨?_, ?_, ?_⟩
  · intro env header body acq fetch hsec hu hb
    unfold handleCloudTasks
    rw [hsec]
    simp [hu, hb]
  · intro env header dataB64 decode payload acq fetch hsec hd hdec hu hb
    unfold handlePubsubPush
    rw [hsec]
    simp [hd, hdec, hu, hb]
  · intro env header bucket objectName fetch video hsec hb hf
    unfold download
    rw [hsec]
    simp [hf, hb]

/-- Witness for C4 (amended) at concrete inputs: a `/tasks/handle` body with
a url but no bucket is rejected with the empty trace, and the `/download`
counterpart acquires its permit before failing. -/
theorem C4_amended_bucket_check_witness :
    handleCloudTasks ⟨none, none, true⟩ none ⟨some "u", none, none⟩ .granted (.err "e") =
      (.error ⟨400, "bucket is required for background jobs"⟩, Trace.empty) ∧
    (download ⟨none, none, true⟩ none true none none .granted
        (.done ⟨"v.mp4", 9⟩ true [])).2.permitAcquires = 1 := by
  constructor
  · exact C4_amended_bucket_check.1 ⟨none, none, true⟩ none ⟨some "u", none, none⟩ .granted
      (.err "e") rfl rfl rfl
  · exact (C4_amended_bucket_check.2.2 ⟨none, none, true⟩ none none none
      (.done ⟨"v.mp4", 9⟩ true []) ⟨"v.mp4", 9⟩ rfl rfl rfl).2.1

/-- C5: artifact resolution prefers the retriever-reported path when it
exists on disk; otherwise, on an empty workspace it fails with the
no-artifact error, and on a non-empty workspace it selects an entry of
maximal byte size — the first encountered in enumeration order on a tie
(every entry strictly before the selected index is strictly smaller); on
the concrete workspace with sizes 10, 500, 3 it resolves to the 500-byte
file. -/
theorem C5_artifact_resolution :
    (∀ (rep : FileEntry) (files : List FileEntry),
        downloadWithYtdlp (.done rep true files) = .ok rep) ∧
    (∀ rep : FileEntry, downloadWithYtdlp (.done rep false []) =
        .error (.fileNotFound "Downloaded file not found")) ∧
    (∀ (rep f : FileEntry) (fs : List FileEntry),
        downloadWithYtdlp (.done rep false (f :: fs)) = .ok (maxBySize f fs) ∧
        maxBySize f fs ∈ f :: fs ∧
        (∀ g ∈ f :: fs, g.size ≤ (maxBySize f fs).size) ∧
        (∃ i, i < (f :: fs).length ∧ (f :: fs).getD i ⟨"", 0⟩ = maxBySize f fs ∧
          ∀ j, j < i → ((f :: fs).getD j ⟨"", 0⟩).size < (maxBySize f fs).size)) ∧
    (∀ rep : FileEntry,
        downloadWithYtdlp (.done rep false [⟨"a", 10⟩, ⟨"b", 500⟩, ⟨"c", 3⟩]) =
          .ok ⟨"b", 500⟩) := by
  refine ⟨fun rep files => rfl, fun rep => rfl, ?_, fun rep => rfl⟩
  intro rep f fs
  exact ⟨rfl, maxBySize_mem fs f, fun g hg => maxBySize_ub fs f g hg, maxBySize_first fs f⟩

/-- Witness for C5 at concrete inputs: the 10/500/3 workspace resolves to
the 500-byte file, and the 3-byte entry is bounded by the selected size. -/
theorem C5_artifact_resolution_witness :
    downloadWithYtdlp (.done ⟨"r", 7⟩ false [⟨"a", 10⟩, ⟨"b", 500⟩, ⟨"c", 3⟩]) =
      .ok ⟨"b", 500⟩ ∧
    (⟨"c", 3⟩ : FileEntry).size ≤ (maxBySize ⟨"a", 10⟩ [⟨"b", 500⟩, ⟨"c", 3⟩]).size := by
  constructor
  · exact C5_artifact_resolution.2.2.2 ⟨"r", 7⟩
  · exact (C5_artifact_resolution.2.2.1 ⟨"r", 7⟩ ⟨"a", 10⟩ [⟨"b", 500⟩, ⟨"c", 3⟩]).2.2.1
      ⟨"c", 3⟩ (by simp)

/-- C6: when WORKER_TOKEN or SECRET_TOKEN is configured (truthy), any
request whose x-worker-token header differs — an absent header included —
fails 401 unauthorized and every handler returns with the empty trace (no
permit requested, no workspace created); when no secret is configured, the
check passes regardless of the header. -/
theorem C6_secret_gate :
    (∀ (env : Env) (provided : Option String),
        pyTruthy (pyOrStr env.workerToken env.secretToken) = true →
        provided ≠ pyOrStr env.workerToken env.secretToken →
        requireSecret env provided = .error ⟨401, "unauthorized"⟩) ∧
    (∀ (env : Env) (provided : Option String),
        pyTruthy (pyOrStr env.workerToken env.secretToken) = false →
        requireSecret env provided = .ok ()) ∧
    (∀ (env : Env) (header : Option String) (toGcs : Bool)
        (bucket objectName : Option String) (acq : AcquireOutcome) (fetch : YdlResult)
        (e : HttpError), requireSecret env header = .error e →
        download env header toGcs bucket objectName acq fetch = (.error e, Trace.empty)) ∧
    (∀ (env : Env) (header : Option String) (body : TasksBody)
        (acq : AcquireOutcome) (fetch : YdlResult) (e : HttpError),
        requireSecret env header = .error e →
        handleCloudTasks env header body acq fetch = (.error e, Trace.empty)) ∧
    (∀ (env : Env) (header : Option String) (dataB64 : Option String)
        (decode : String → Option TasksBody) (acq : AcquireOutcome) (fetch : YdlResult)
        (e : HttpError), requireSecret env header = .error e →
        handlePubsubPush env header dataB64 decode acq fetch = (.error e, Trace.empty)) := by
  refine ⟨?_, ?_, ?_, ?_, ?_⟩
  · intro env provided ht hne
    unfold requireSecret
    simp only [ht, if_true]
    simp [hne]
  · intro env provided ht
    unfold requireSecret
    simp [ht]
  · intro env header toGcs bucket objectName acq fetch e hsec
    unfold download
    rw [hsec]
  · intro env header body acq fetch e hsec
    unfold handleCloudTasks
    rw [hsec]
  · intro env header dataB64 decode acq fetch e hsec
    unfold handlePubsubPush
    rw [hsec]

/-- Witness for C6 at concrete inputs: with WORKER_TOKEN configured and the
header absent the request is rejected 401 with the empty trace; with no
secret configured an arbitrary header passes. -/
theorem C6_secret_gate_witness :
    requireSecret ⟨some "s3cret", none, true⟩ none = .error ⟨401, "unauthorized"⟩ ∧
    download ⟨some "s3cret", none, true⟩ none false none none .granted (.err "e") =
      (.error ⟨401, "unauthorized"⟩, Trace.empty) ∧
    requireSecret ⟨none, none, true⟩ (some "whatever") = .ok () := by
  refine ⟨?_, ?_, ?_⟩
  · exact C6_secret_gate.1 ⟨some "s3cret", none, true⟩ none (by decide) (by decide)
  · exact C6_secret_gate.2.2.1 ⟨some "s3cret", none, true⟩ none false none none .granted
      (.err "e") ⟨401, "unauthorized"⟩
      (C6_secret_gate.1 ⟨some "s3cret", none, true⟩ none (by decide) (by decide))
  · exact C6_secret_gate.2.1 ⟨none, none, true⟩ (some "whatever") (by decide)

/-- C7: a push-intake request whose envelope is malformed — missing or
falsy message.data, or message.data whose base64/JSON decoding raises — is
rejected with 400 and never reaches the admission gate: the trace is empty,
so no permit acquisition is attempted and no workspace is created. -/
theorem C7_push_envelope_rejection :
    (∀ (env : Env) (header : Option String) (dataB64 : Option String)
        (decode : String → Option TasksBody) (acq : AcquireOutcome) (fetch : YdlResult),
        requireSecret env header = .ok () → pyTruthy dataB64 = false →
        handlePubsubPush env header dataB64 decode acq fetch =
          (.error ⟨400, "missing message.data"⟩, Trace.empty)) ∧
    (∀ (env : Env) (header : Option String) (s : String)
        (decode : String → Option TasksBody) (acq : AcquireOutcome) (fetch : YdlResult),
        requireSecret env header = .ok () → pyTruthy (some s) = true → decode s = none →
        handlePubsubPush env header (some s) decode acq fetch =
          (.error ⟨400, "invalid message.data payload"⟩, Trace.empty)) ∧
    Trace.empty.permitAcquires = 0 ∧ Trace.empty.workspaceCreates = 0 := by
  refine ⟨?_, ?_, rfl, rfl⟩
  · intro env header dataB64 decode acq fetch hsec hd
    unfold handlePubsubPush
    rw [hsec]
    simp [hd]
  · intro env header s decode acq fetch hsec hs hdec
    unfold handlePubsubPush
    rw [hsec]
    simp [hs, hdec]

/-- Witness for C7 at concrete inputs: an envelope with no message.data,
and one whose data fails to decode, are both rejected with the empty
trace. -/
theorem C7_push_envelope_rejection_witness :
    handlePubsubPush ⟨none, none, true⟩ none none (fun _ => none) .granted (.err "e") =
      (.error ⟨400, "missing message.data"⟩, Trace.empty) ∧
    handlePubsubPush ⟨none, none, true⟩ none (some "%%%not-base64") (fun _ => none)
        .granted (.err "e") =
      (.error ⟨400, "invalid message.data payload"⟩, Trace.empty) := by
  constructor
  · exact C7_push_envelope_rejection.1 ⟨none, none, true⟩ none none (fun _ => none)
      .granted (.err "e") rfl rfl
  · exact C7_push_envelope_rejection.2.1 ⟨none, none, true⟩ none "%%%not-base64"
      (fun _ => none) .granted (.err "e") rfl (by decide) rfl

/-- C8 counterexample: with the caller-supplied object name "" (supplied
but empty), the response reports the artifact filename "clip.mp4" rather
than the caller-supplied name, while the single publish call is made with
object name "" — response and publish parameters disagree, refuting the
claim at this input. -/
theorem C8_counterexample :
    (download ⟨none, none, true⟩ none true (some "b1") (some "") .granted
        (.done ⟨"clip.mp4", 42⟩ true [])).1 =
      .ok (.uploaded "b1" "clip.mp4" (publicUrl "b1" "") 42) ∧
    (download ⟨none, none, true⟩ none true (some "b1") (some "") .granted
        (.done ⟨"clip.mp4", 42⟩ true [])).2.publishCalls =
      [⟨"clip.mp4", "b1", "", true⟩] ∧
    ("clip.mp4" : String) ≠ "" :=
  ⟨rfl, rfl, by decide⟩

/-- C8 (amended): every successful publish-mode request on `/download`
responds with the destination bucket, the artifact's byte size, an object
name equal to the caller-supplied name when given and non-empty (otherwise
the artifact's local filename), and the non-empty public URL of the
uploaded object; exactly one publish call is made, with the same bucket and
the artifact's file, and an object name equal to the caller-supplied name
whenever one is given — even an empty one — defaulting to the artifact
filename only when absent. -/
theorem C8_amended_publish_response :
    ∀ (env : Env) (header : Option String) (b : String) (objectName : Option String)
      (fetch : YdlResult) (video : FileEntry),
      requireSecret env header = .ok () → env.hasGCS = true → b ≠ "" →
      downloadWithYtdlp fetch = .ok video →
      download env header true (some b) objectName .granted fetch =
        (.ok (.uploaded b (pyOrName objectName video.name)
              (publicUrl b (objectName.getD video.name)) video.size),
         ⟨1, 1, 1, 1, 0, [⟨video.name, b, objectName.getD video.name, true⟩]⟩) ∧
      publicUrl b (objectName.getD video.name) ≠ "" := by
  intro env header b objectName fetch video hsec hgcs hb hf
  constructor
  · unfold download uploadToGcs
    rw [hsec, hgcs]
    simp only [hf]
    cases objectName <;> simp [pyTruthy, pyOrName, pyOrStr, hb]
  · intro hcontra
    have h2 := congrArg String.data hcontra
    simp [publicUrl, String.data_append] at h2

/-- Witness for C8 (amended) at the spec's concrete example: bucket b1, a
42-byte clip.mp4, no caller-supplied object name. -/
theorem C8_amended_publish_response_witness :
    download ⟨none, none, true⟩ none true (some "b1") none .granted
        (.done ⟨"clip.mp4", 42⟩ true []) =
      (.ok (.uploaded "b1" "clip.mp4" (publicUrl "b1" "clip.mp4") 42),
       ⟨1, 1, 1, 1, 0, [⟨"clip.mp4", "b1", "clip.mp4", true⟩]⟩) :=
  (C8_amended_publish_response ⟨none, none, true⟩ none "b1" none
    (.done ⟨"clip.mp4", 42⟩ true []) ⟨"clip.mp4", 42⟩ rfl rfl (by decide) rfl).1

/-- C9: the GCS capability is a startup flag; its absence surfaces only at
publish call time (the upload helper raises the configuration error, which
the handler maps to a 500), while stream mode never invokes the store on
any path (its publish-call list is always empty) and remains fully usable
without the store (a stream request still succeeds when hasGCS is
false). -/
theorem C9_gcs_optional_capability :
    (∀ (env : Env) (header : Option String) (bucket objectName : Option String)
        (acq : AcquireOutcome) (fetch : YdlResult),
        (download env header false bucket objectName acq fetch).2.publishCalls = []) ∧
    (∀ (env : Env) (header : Option String) (bucket objectName : Option String)
        (fetch : YdlResult) (video : FileEntry),
        requireSecret env header = .ok () → downloadWithYtdlp fetch = .ok video →
        (download env header false bucket objectName .granted fetch).1 =
          .ok (.fileStream video.name)) ∧
    (∀ (file : FileEntry) (b : String) (o : Option String),
        uploadToGcs false file b o =
          .error (.noGcs "google-cloud-storage is not installed; install the \x27gcs\x27 extra")) ∧
    (∀ (env : Env) (header : Option String) (bucket objectName : Option String)
        (fetch : YdlResult) (video : FileEntry),
        requireSecret env header = .ok () → env.hasGCS = false →
        pyTruthy bucket = true → downloadWithYtdlp fetch = .ok video →
        (download env header true bucket objectName .granted fetch).1 =
          .error ⟨500,
            "google-cloud-storage is not installed; install the \x27gcs\x27 extra"⟩) := by
  refine ⟨?_, ?_, fun file b o => rfl, ?_⟩
  · intro env header bucket objectName acq fetch
    unfold download
    repeat' split
    all_goals simp_all [Trace.empty]
  · intro env header bucket objectName fetch video hsec hf
    unfold download
    rw [hsec]
    simp [hf]
  · intro env header bucket objectName fetch video hsec hgcs hbt hf
    unfold download uploadToGcs
    rw [hsec, hgcs]
    simp [hf, hbt]

/-- Witness for C9 at concrete inputs: with hasGCS false a stream request
still succeeds, and the same fetch in publish mode fails 500 at publish
time. -/
theorem C9_gcs_optional_capability_witness :
    (download ⟨none, none, false⟩ none false none none .granted
        (.done ⟨"v.mp4", 7⟩ true [])).1 = .ok (.fileStream "v.mp4") ∧
    (download ⟨none, none, false⟩ none true (some "b") none .granted
        (.done ⟨"v.mp4", 7⟩ true [])).1 =
      .error ⟨500,
        "google-cloud-storage is not installed; install the \x27gcs\x27 extra"⟩ := by
  constructor
  · exact C9_gcs_optional_capability.2.1 ⟨none, none, false⟩ none none none
      (.done ⟨"v.mp4", 7⟩ true []) ⟨"v.mp4", 7⟩ rfl rfl
  · exact C9_gcs_optional_capability.2.2.2 ⟨none, none, false⟩ none (some "b") none
      (.done ⟨"v.mp4", 7⟩ true []) ⟨"v.mp4", 7⟩ rfl rfl (by decide) rfl

theorem uploadToGcs_ok_public (hasGCS : Bool) (file : FileEntry) (b : String)
    (o : Option String) (call : PublishCall) (u : String)
    (h : uploadToGcs hasGCS file b o = .ok (call, u)) :
    call.madePublic = true ∧ u = publicUrl call.bucket call.objectName := by
  unfold uploadToGcs at h
  split at h
  · exact absurd h (by simp)
  · split at h
    · exact absurd h (by simp)
    · simp only [Except.ok.injEq, Prod.mk.injEq] at h
      obtain ⟨hc, hu⟩ := h
      subst hc
      subst hu
      exact ⟨rfl, rfl⟩

theorem download_uploaded_inv (env : Env) (header : Option String) (toGcs : Bool)
    (bucket objectName : Option String) (acq : AcquireOutcome) (fetch : YdlResult)
    (b oname u : String) (s : Nat)
    (h : (download env header toGcs bucket objectName acq fetch).1 =
      .ok (.uploaded b oname u s)) :
    ∃ c, (download env header toGcs bucket objectName acq fetch).2.publishCalls = [c] ∧
      c.madePublic = true ∧ u = publicUrl c.bucket c.objectName := by
  unfold download at h ⊢
  revert h
  cases hsec : requireSecret env header with
  | error e => intro h; exact absurd h (by simp)
  | ok u0 =>
    cases u0
    cases acq with
    | timedOut => intro h; exact absurd h (by simp)
    | granted =>
      cases hf : downloadWithYtdlp fetch with
      | error fe =>
        cases fe with
        | downloadError m => intro h; exact absurd h (by simp)
        | fileNotFound m => intro h; exact absurd h (by simp)
      | ok video =>
        cases toGcs with
        | false => intro h; exact absurd h (by simp)
        | true =>
          by_cases hbt : pyTruthy bucket = true
          · cases hup : uploadToGcs env.hasGCS video (bucket.getD "") objectName with
            | error ue =>
              cases ue with
              | noGcs m => intro h; exact absurd h (by simp [hbt, hup])
              | emptyBucket m => intro h; exact absurd h (by simp [hbt, hup])
            | ok pr =>
              obtain ⟨call, urlStr⟩ := pr
              intro h
              simp only [hbt, hup, Bool.not_true, Bool.false_eq_true, if_false, if_true,
                ite_true, ite_false] at h ⊢
              simp only [Except.ok.injEq, Response.uploaded.injEq] at h
              refine ⟨call, by simp, (uploadToGcs_ok_public _ _ _ _ _ _ hup).1, ?_⟩
              rw [← h.2.2.1]
              exact (uploadToGcs_ok_public _ _ _ _ _ _ hup).2
          · simp only [Bool.not_eq_true] at hbt
            intro h
            exact absurd h (by simp [hbt])

theorem backgroundFetchPublish_uploaded_inv (env : Env) (b2 : String)
    (objectName : Option String) (fetch : YdlResult) (b oname u : String) (s : Nat)
    (h : (backgroundFetchPublish env b2 objectName fetch).1 = .ok (.uploaded b oname u s)) :
    ∃ c, (backgroundFetchPublish env b2 objectName fetch).2.publishCalls = [c] ∧
      c.madePublic = true ∧ u = publicUrl c.bucket c.objectName := by
  unfold backgroundFetchPublish at h ⊢
  revert h
  cases hf : downloadWithYtdlp fetch with
  | error fe =>
    cases fe with
    | downloadError m => intro h; exact absurd h (by simp)
    | fileNotFound m => intro h; exact absurd h (by simp)
  | ok video =>
    cases hup : uploadToGcs env.hasGCS video b2 objectName with
    | error ue =>
      cases ue with
      | noGcs m => intro h; exact absurd h (by simp [hup])
      | emptyBucket m => intro h; exact absurd h (by simp [hup])
    | ok pr =>
      obtain ⟨call, urlStr⟩ := pr
      intro h
      simp only [hup] at h ⊢
      simp only [Except.ok.injEq, Response.uploaded.injEq] at h
      refine ⟨call, by simp, (uploadToGcs_ok_public _ _ _ _ _ _ hup).1, ?_⟩
      rw [← h.2.2.1]
      exact (uploadToGcs_ok_public _ _ _ _ _ _ hup).2

/-- C10: every successful publish makes the uploaded object public as part
of the call, and the reference URL handed back is precisely the object's
public URL — at the upload-helper level, and at the handler level: any
successful publish-mode response carries the public URL of the single
recorded publish call, which was made public. -/
theorem C10_publish_public_url :
    (∀ (hasGCS : Bool) (file : FileEntry) (b : String) (o : Option String)
        (call : PublishCall) (u : String),
        uploadToGcs hasGCS file b o = .ok (call, u) →
        call.madePublic = true ∧ u = publicUrl call.bucket call.objectName) ∧
    (∀ (env : Env) (header : Option String) (toGcs : Bool)
        (bucket objectName : Option String) (acq : AcquireOutcome) (fetch : YdlResult)
        (b oname u : String) (s : Nat),
        (download env header toGcs bucket objectName acq fetch).1 =
          .ok (.uploaded b oname u s) →
        ∃ c, (download env header toGcs bucket objectName acq fetch).2.publishCalls = [c] ∧
          c.madePublic = true ∧ u = publicUrl c.bucket c.objectName) ∧
    (∀ (env : Env) (b2 : String) (objectName : Option String) (fetch : YdlResult)
        (b oname u : String) (s : Nat),
        (backgroundFetchPublish env b2 objectName fetch).1 = .ok (.uploaded b oname u s) →
        ∃ c, (backgroundFetchPublish env b2 objectName fetch).2.publishCalls = [c] ∧
          c.madePublic = true ∧ u = publicUrl c.bucket c.objectName) :=
  ⟨uploadToGcs_ok_public, download_uploaded_inv, backgroundFetchPublish_uploaded_inv⟩

/-- Witness for C10 at a concrete input: a successful publish-mode request
records exactly one publish call, made public, whose public URL is the
response URL. -/
theorem C10_publish_public_url_witness :
    ∃ c, (download ⟨none, none, true⟩ none true (some "bx") none .granted
        (.done ⟨"f.mp4", 5⟩ true [])).2.publishCalls = [c] ∧
      c.madePublic = true ∧ publicUrl "bx" "f.mp4" = publicUrl c.bucket c.objectName :=
  C10_publish_public_url.2.1 ⟨none, none, true⟩ none true (some "bx") none .granted
    (.done ⟨"f.mp4", 5⟩ true []) "bx" "f.mp4" (publicUrl "bx" "f.mp4") 5 rfl

end Gcyt
